import Mathlib

/-!
Shallow embedding of the SentinelBot scan-orchestration engine.

Sources embedded:
  backend/src/services/reportService.js  (AIVulnerabilityAnalyzer: risk classification)
  backend/src/services/scannerService.js (tool adapters and simulated fallbacks)
  backend/src/services/queueService.js   (scan worker, executeScan, queue retry policy)

JavaScript numbers are modelled as exact rationals; for every base score and
multiplier occurring in the source, rational and IEEE-double arithmetic agree
on all threshold comparisons and on rounding to one decimal.  Optional /
possibly-undefined JS fields are modelled as `Option`, with JS truthiness
(undefined, empty string and 0 are falsy) made explicit where the source
relies on it.
-/

namespace SentinelBot

/-- Risk levels of the `risk_level` enum. -/
inductive RiskLevel
  | info
  | low
  | medium
  | high
  | critical
deriving DecidableEq, Repr

/-- Scan statuses of the `scan_status` enum. -/
inductive ScanStatus
  | pending
  | running
  | complete
  | error
  | cancelled
deriving DecidableEq, Repr

/-- ASCII lower-casing of one character (the fields compared in the source are ASCII). -/
def lowerChar (c : Char) : Char :=
  if 'A' ≤ c ∧ c ≤ 'Z' then Char.ofNat (c.toNat + 32) else c

/-- List of the characters of `s`, lower-cased; models `s.toLowerCase()`. -/
def lowerStr (s : String) : List Char :=
  s.data.map lowerChar

/-- Does `hay` start with `needle`? -/
def startsList : List Char → List Char → Bool
  | [], _ => true
  | _ :: _, [] => false
  | a :: as, b :: bs => a == b && startsList as bs

/-- Substring search; models `String.prototype.includes`. -/
def containsSub (needle : List Char) : List Char → Bool
  | [] => needle.isEmpty
  | c :: t => startsList needle (c :: t) || containsSub needle t

/-- Models `field?.toLowerCase().includes(sub)` on a possibly-undefined field. -/
def optContains (x : Option String) (sub : String) : Bool :=
  match x with
  | some s => containsSub sub.data (lowerStr s)
  | none => false

/-- JS truthiness of a possibly-undefined string field (undefined and "" are falsy). -/
def truthyStr (x : Option String) : Bool :=
  match x with
  | some s => s != ""
  | none => false

/-- JS truthiness of a possibly-undefined numeric port field (undefined and 0 are falsy). -/
def truthyNat (x : Option Nat) : Bool :=
  match x with
  | some p => p != 0
  | none => false

/-- Models `x && list.includes(x)` for the numeric port field. -/
def memNatList (x : Option Nat) (l : List Nat) : Bool :=
  match x with
  | some p => l.contains p
  | none => false

/-- Models `x && list.includes(x)` (also `x === a || x === b || ...`) for a string field. -/
def memStrList (x : Option String) (l : List String) : Bool :=
  match x with
  | some s => l.contains s
  | none => false

/-- Models `x || dflt` on a string field ("" is falsy). -/
def orElseStr (x : Option String) (dflt : String) : String :=
  match x with
  | some s => if s = "" then dflt else s
  | none => dflt

/-- Models `scanResult.port || d` (0 is falsy). -/
def portOrDefault (x : Option Nat) (d : Nat) : Nat :=
  match x with
  | some p => if p = 0 then d else p
  | none => d

/-- Models the interpolation `${scanResult.port || 'unknown'}`. -/
def portDisplay (x : Option Nat) : String :=
  match x with
  | some p => if p = 0 then "unknown" else toString p
  | none => "unknown"

/-- One raw finding as produced by a tool adapter (the `RawFinding` record of the
adapters in scannerService.js).  `raw_output` is kept opaque as a string. -/
structure RawFinding where
  vulnerability_type : Option String
  title : Option String
  description : Option String
  port : Option Nat
  service : Option String
  version : Option String
  protocol : Option String
  cve_id : Option String
  affected_component : Option String
  raw_output : String
deriving DecidableEq, Repr

/-- One entry of `this.vulnerabilityDatabase` in reportService.js. -/
structure Profile where
  risk_level : RiskLevel
  base_cvss : ℚ
  description : String
  fix_suggestions : List String
deriving DecidableEq, Repr

/-- Keys of `this.vulnerabilityDatabase`. -/
inductive VulnPattern
  | ssh_open
  | http_server_outdated
  | ssl_weak_cipher
  | database_exposed
  | sql_injection
  | xss_vulnerability
  | open_port
deriving DecidableEq, Repr

/-- The vulnerability database of AIVulnerabilityAnalyzer (reportService.js). -/
def vulnerabilityDatabase : VulnPattern → Profile
  | .ssh_open =>
    { risk_level := .medium
      base_cvss := 5.3
      description := "SSH service is exposed and accessible from external networks"
      fix_suggestions :=
        [ "Restrict SSH access to specific IP ranges using firewall rules"
        , "Implement fail2ban to prevent brute force attacks"
        , "Use key-based authentication instead of passwords"
        , "Change SSH port from default 22 to a non-standard port"
        , "Disable root login via SSH" ] }
  | .http_server_outdated =>
    { risk_level := .high
      base_cvss := 7.5
      description := "Web server is running an outdated version with known security vulnerabilities"
      fix_suggestions :=
        [ "Update web server to the latest stable version"
        , "Apply all available security patches"
        , "Review and harden server configuration"
        , "Implement Web Application Firewall (WAF)"
        , "Regular security updates and monitoring" ] }
  | .ssl_weak_cipher =>
    { risk_level := .low
      base_cvss := 3.7
      description := "Server supports weak SSL/TLS cipher suites that could be exploited"
      fix_suggestions :=
        [ "Disable weak cipher suites (RC4, DES, 3DES)"
        , "Enable only strong encryption algorithms (AES)"
        , "Use TLS 1.2 or higher versions only"
        , "Implement Perfect Forward Secrecy (PFS)"
        , "Regular SSL/TLS configuration audits" ] }
  | .database_exposed =>
    { risk_level := .high
      base_cvss := 8.1
      description := "Database service is accessible from external networks"
      fix_suggestions :=
        [ "Restrict database access to application servers only"
        , "Use VPN for remote database administration"
        , "Implement database firewall rules"
        , "Enable database encryption at rest and in transit"
        , "Regular database security audits" ] }
  | .sql_injection =>
    { risk_level := .critical
      base_cvss := 9.8
      description := "Application is vulnerable to SQL injection attacks"
      fix_suggestions :=
        [ "Use parameterized queries and prepared statements"
        , "Implement input validation and sanitization"
        , "Apply principle of least privilege for database users"
        , "Use stored procedures where appropriate"
        , "Regular code security reviews and testing" ] }
  | .xss_vulnerability =>
    { risk_level := .medium
      base_cvss := 6.1
      description := "Application is vulnerable to Cross-Site Scripting (XSS) attacks"
      fix_suggestions :=
        [ "Implement proper input validation and output encoding"
        , "Use Content Security Policy (CSP) headers"
        , "Sanitize user input before displaying"
        , "Use secure coding practices for web development"
        , "Regular security testing and code reviews" ] }
  | .open_port =>
    { risk_level := .info
      base_cvss := 0.0
      description := "Network service detected on open port"
      fix_suggestions :=
        [ "Review if this service is necessary"
        , "Implement access controls if service is required"
        , "Monitor service for security updates"
        , "Consider using VPN for sensitive services" ] }

/-- The pattern-matching chain of `identifyVulnerabilityPattern` (reportService.js),
in source order. -/
def identifyVulnerabilityPattern (scanResult : RawFinding) : VulnPattern :=
  if optContains scanResult.vulnerability_type "sql" ||
     optContains scanResult.title "sql injection" then .sql_injection
  else if optContains scanResult.vulnerability_type "xss" ||
     optContains scanResult.title "cross-site scripting" then .xss_vulnerability
  else if scanResult.service == some "ssh" || scanResult.port == some 22 then .ssh_open
  else if (scanResult.service == some "http" || scanResult.service == some "https" ||
           scanResult.port == some 80 || scanResult.port == some 443) &&
          (optContains scanResult.description "outdated" ||
           optContains scanResult.description "vulnerable version") then .http_server_outdated
  else if optContains scanResult.vulnerability_type "ssl" ||
     optContains scanResult.vulnerability_type "tls" then .ssl_weak_cipher
  else if memStrList scanResult.service ["mysql", "postgresql", "mssql"] ||
     memNatList scanResult.port [3306, 5432, 1433] then .database_exposed
  else .open_port

/-- The risk-multiplier accumulation of `calculateContextualRisk` (reportService.js):
starts at 1.0; +0.2 for remote-access ports, +0.3 for database services, +0.4 for a CVE. -/
def contextMultiplier (scanResult : RawFinding) : ℚ :=
  let m1 : ℚ := 1.0
  let m2 : ℚ := if memNatList scanResult.port [22, 23, 3389] then m1 + 0.2 else m1
  let m3 : ℚ := if memStrList scanResult.service ["mysql", "postgresql", "mssql"] then m2 + 0.3 else m2
  if truthyStr scanResult.cve_id then m3 + 0.4 else m3

/-- The threshold chain of `calculateContextualRisk` (reportService.js) mapping the
capped score to a risk level: ≥9.0 critical, ≥7.0 high, ≥4.0 medium, ≥0.1 low, else info. -/
def riskLevelOfScore (cvssScore : ℚ) : RiskLevel :=
  if cvssScore ≥ 9.0 then .critical
  else if cvssScore ≥ 7.0 then .high
  else if cvssScore ≥ 4.0 then .medium
  else if cvssScore ≥ 0.1 then .low
  else .info

/-- Models `Math.round(x * 10) / 10` for the non-negative scores of this pipeline. -/
def roundTenth (q : ℚ) : ℚ :=
  ((round (q * 10) : ℤ) : ℚ) / 10

/-- Result record of `calculateContextualRisk`. -/
structure ContextualRisk where
  risk_level : RiskLevel
  cvss_score : ℚ
deriving DecidableEq, Repr

/-- The `calculateContextualRisk` function of reportService.js: multiply the profile
base score by the contextual multiplier, cap at 10.0, derive the risk level from the
capped (unrounded) score, and return the score rounded to one decimal. -/
def calculateContextualRisk (scanResult : RawFinding) (baseAnalysis : Profile) : ContextualRisk :=
  let riskMultiplier : ℚ := contextMultiplier scanResult
  let cvssScore : ℚ := min (baseAnalysis.base_cvss * riskMultiplier) 10.0
  { risk_level := riskLevelOfScore cvssScore
    cvss_score := roundTenth cvssScore }

/-- Technical-details record assembled by `extractTechnicalDetails`. -/
structure TechnicalDetails where
  port : Option Nat
  service : Option String
  protocol : String
  version : Option String
  raw_output : String
deriving DecidableEq, Repr

/-- The `extractTechnicalDetails` function (reportService.js); `protocol` defaults to "tcp". -/
def extractTechnicalDetails (scanResult : RawFinding) : TechnicalDetails :=
  { port := scanResult.port
    service := scanResult.service
    protocol := orElseStr scanResult.protocol "tcp"
    version := scanResult.version
    raw_output := scanResult.raw_output }

/-- The `generateTitle` function (reportService.js). -/
def generateTitle (scanResult : RawFinding) (pattern : VulnPattern) : String :=
  let baseTitle := orElseStr scanResult.title (orElseStr scanResult.vulnerability_type "Security Finding")
  match pattern with
  | .ssh_open => "SSH Service Exposed on Port " ++ toString (portOrDefault scanResult.port 22)
  | .database_exposed => "Database Service Accessible from External Networks"
  | _ => baseTitle

/-- The `generateDescription` function (reportService.js). -/
def generateDescription (scanResult : RawFinding) (baseAnalysis : Profile) : String :=
  let d1 := baseAnalysis.description
  let d2 :=
    if truthyStr scanResult.service then
      d1 ++ " The " ++ (scanResult.service.getD "") ++ " service is running on port " ++
        portDisplay scanResult.port ++ "."
    else d1
  if truthyStr scanResult.cve_id then
    d2 ++ " This finding is associated with " ++ (scanResult.cve_id.getD "") ++ "."
  else d2

/-- The `generateFixSuggestion` function (reportService.js): profile suggestions plus a
port-specific one, joined by a bullet separator. -/
def generateFixSuggestion (scanResult : RawFinding) (baseAnalysis : Profile) : String :=
  let suggestions := baseAnalysis.fix_suggestions ++
    (if truthyNat scanResult.port then
      ["Consider changing the service from default port " ++
         toString (portOrDefault scanResult.port 0) ++ " if possible"]
     else [])
  String.intercalate "\n• " suggestions

/-- The `assessImpact` lookup table (reportService.js). -/
def assessImpact (riskLevel : RiskLevel) : String :=
  match riskLevel with
  | .critical => "Complete system compromise, data breach, or service disruption highly likely"
  | .high => "Significant security risk with potential for unauthorized access or data exposure"
  | .medium => "Moderate security risk that could lead to limited unauthorized access"
  | .low => "Minor security concern with limited potential impact"
  | .info => "Informational finding for security awareness"

/-- The `calculateRemediationPriority` lookup table (reportService.js). -/
def calculateRemediationPriority (contextualRisk : ContextualRisk) : String :=
  match contextualRisk.risk_level with
  | .critical => "Immediate (within 24 hours)"
  | .high => "High (within 1 week)"
  | .medium => "Medium (within 1 month)"
  | .low => "Low (within 3 months)"
  | .info => "Informational (as time permits)"

/-- The `getReferences` lookup table (reportService.js); unlisted patterns give []. -/
def getReferences (pattern : VulnPattern) : List String :=
  match pattern with
  | .ssh_open =>
    [ "https://www.ssh.com/academy/ssh/security"
    , "https://nvd.nist.gov/vuln/search/results?form_type=Basic&results_type=overview&query=SSH" ]
  | .sql_injection =>
    [ "https://owasp.org/www-community/attacks/SQL_Injection"
    , "https://cwe.mitre.org/data/definitions/89.html" ]
  | .xss_vulnerability =>
    [ "https://owasp.org/www-community/attacks/xss/"
    , "https://cwe.mitre.org/data/definitions/79.html" ]
  | _ => []

/-- The `calculateConfidenceScore` function (reportService.js): 0.7 base, +0.2 for a CVE,
+0.1 for a service, +0.1 for a version, capped at 1.0. -/
def calculateConfidenceScore (scanResult : RawFinding) : ℚ :=
  let c1 : ℚ := 0.7
  let c2 : ℚ := if truthyStr scanResult.cve_id then c1 + 0.2 else c1
  let c3 : ℚ := if truthyStr scanResult.service then c2 + 0.1 else c2
  let c4 : ℚ := if truthyStr scanResult.version then c3 + 0.1 else c3
  min c4 1.0

/-- The analysis record returned by the classifier. -/
structure Analysis where
  risk_level : RiskLevel
  cvss_score : ℚ
  title : String
  description : String
  fix_suggestion : String
  technical_details : TechnicalDetails
  impact_assessment : String
  remediation_priority : String
  references : List String
  confidence_score : ℚ
deriving DecidableEq, Repr

/-- The `performAnalysis` function (reportService.js): select a profile, score it in
context, and assemble the analysis record. -/
def performAnalysis (scanResult : RawFinding) : Analysis :=
  let pattern := identifyVulnerabilityPattern scanResult
  let baseAnalysis := vulnerabilityDatabase pattern
  let contextualRisk := calculateContextualRisk scanResult baseAnalysis
  { risk_level := contextualRisk.risk_level
    cvss_score := contextualRisk.cvss_score
    title := generateTitle scanResult pattern
    description := generateDescription scanResult baseAnalysis
    fix_suggestion := generateFixSuggestion scanResult baseAnalysis
    technical_details := extractTechnicalDetails scanResult
    impact_assessment := assessImpact contextualRisk.risk_level
    remediation_priority := calculateRemediationPriority contextualRisk
    references := getReferences pattern
    confidence_score := calculateConfidenceScore scanResult }

/-- The `getFallbackAnalysis` function (reportService.js): the fixed info-level record
returned by the catch branch of `analyzeVulnerability`. -/
def getFallbackAnalysis (scanResult : RawFinding) : Analysis :=
  { risk_level := .info
    cvss_score := 0.0
    title := orElseStr scanResult.title "Security Finding"
    description := "A security finding was detected but could not be fully analyzed."
    fix_suggestion := "Review this finding manually and apply appropriate security measures."
    technical_details := extractTechnicalDetails scanResult
    impact_assessment := "Impact assessment unavailable"
    remediation_priority := "Manual review required"
    references := []
    confidence_score := 0.3 }

/-- The try/catch of `analyzeVulnerability` (reportService.js): the internal analysis
step is passed explicitly as an `Except` so both branches are embedded; an internal
error is absorbed into the fallback record, never re-raised. -/
def analyzeVulnerabilityWith (internal : Except String Analysis) (scanResult : RawFinding) : Analysis :=
  match internal with
  | .ok analysis => analysis
  | .error _ => getFallbackAnalysis scanResult

/-- The `analyzeVulnerability` entry point on its normal (non-throwing) path. -/
def analyzeVulnerability (scanResult : RawFinding) : Analysis :=
  analyzeVulnerabilityWith (.ok (performAnalysis scanResult)) scanResult

/-- Spec-side threshold map, written from the spec words of claim C5: score ≥9.0
critical, ≥7.0 high, ≥4.0 medium, strictly positive low, else info.  To be compared
with `riskLevelOfScore` (which the code applies, with ≥0.1 for low). -/
def specRiskLevel (score : ℚ) : RiskLevel :=
  if score ≥ 9.0 then .critical
  else if score ≥ 7.0 then .high
  else if score ≥ 4.0 then .medium
  else if score > 0.0 then .low
  else .info

/-! Tool adapters (scannerService.js).  The external process is modelled by its
outcome; everything after a successful run of the nmap and nikto tools (reading
and parsing the output file) is abstracted as an `Except` parameter, because the
source wraps the whole body in one try/catch whose catch returns the simulated set. -/

/-- Outcome of `executeCommand` for one external tool process. -/
inductive CmdOutcome
  | ok (stdout : String)
  | nonzeroExit (code : Nat) (stderr : String)
  | timedOut (ms : Nat)
  | spawnError (msg : String)
deriving DecidableEq, Repr

/-- Did the external process succeed (exit code 0 within the timeout)? -/
def isOkCmd : CmdOutcome → Bool
  | .ok _ => true
  | _ => false

/-- The `getSimulatedNmapResults` fallback set (scannerService.js). -/
def getSimulatedNmapResults (target : String) : List RawFinding :=
  [ { vulnerability_type := some "Open Port"
      title := some "SSH Service on Port 22"
      description := none
      port := some 22
      service := some "ssh"
      version := some "OpenSSH 8.2p1"
      protocol := some "tcp"
      cve_id := none
      affected_component := some (target ++ ":22")
      raw_output := "host=" ++ target ++ " port=22 protocol=tcp state=open service=ssh OpenSSH 8.2p1" }
  , { vulnerability_type := some "Open Port"
      title := some "HTTP Service on Port 80"
      description := none
      port := some 80
      service := some "http"
      version := some "Apache 2.4.29"
      protocol := some "tcp"
      cve_id := none
      affected_component := some (target ++ ":80")
      raw_output := "host=" ++ target ++ " port=80 protocol=tcp state=open service=http Apache 2.4.29" } ]

/-- The `getSimulatedNiktoResults` fallback set (scannerService.js). -/
def getSimulatedNiktoResults (_target : String) : List RawFinding :=
  [ { vulnerability_type := some "Web Vulnerability"
      title := some "Server Information Disclosure"
      description := some "Server version information is disclosed in HTTP headers"
      port := some 80
      service := some "http"
      version := none
      protocol := none
      cve_id := none
      affected_component := none
      raw_output := "+ Server: Apache/2.4.29 (Ubuntu)" }
  , { vulnerability_type := some "Web Vulnerability"
      title := some "Directory Listing Enabled"
      description := some "Directory listing is enabled on /uploads/ directory"
      port := some 80
      service := some "http"
      version := none
      protocol := none
      cve_id := none
      affected_component := none
      raw_output := "+ /uploads/: Directory indexing found." } ]

/-- The single finding of the `getSimulatedSqlmapResults` fallback set, hoisted to a
definition (the source returns the same literal regardless of target). -/
def sqlmapSimulatedFinding : RawFinding :=
  { vulnerability_type := some "SQL Injection"
    title := some "SQL Injection in Login Form"
    description := some "Time-based blind SQL injection vulnerability detected in login parameter"
    port := none
    service := none
    version := none
    protocol := none
    cve_id := some "CVE-2021-44228"
    affected_component := none
    raw_output := "Parameter: username (POST)\nType: time-based blind" }

/-- The `getSimulatedSqlmapResults` fallback set (scannerService.js). -/
def getSimulatedSqlmapResults (_target : String) : List RawFinding :=
  [sqlmapSimulatedFinding]

/-- The `getSimulatedZapResults` set (scannerService.js); the zap adapter has no real
integration and always returns it. -/
def getSimulatedZapResults (_target : String) : List RawFinding :=
  [ { vulnerability_type := some "XSS"
      title := some "Cross-Site Scripting (XSS) Vulnerability"
      description := some "Reflected XSS vulnerability found in search parameter"
      port := some 80
      service := some "http"
      version := none
      protocol := none
      cve_id := none
      affected_component := none
      raw_output := "XSS detected in search parameter" } ]

/-- The `runNmapScan` adapter (scannerService.js): on process success, the parsed XML
findings (`parsed`, which the source may also fail to read or parse); any failure
anywhere in the body is caught and yields the simulated set. -/
def runNmapScan (cmd : CmdOutcome) (parsed : Except String (List RawFinding))
    (target : String) : List RawFinding :=
  match cmd with
  | .ok _ =>
    match parsed with
    | .ok findings => findings
    | .error _ => getSimulatedNmapResults target
  | _ => getSimulatedNmapResults target

/-- The `runNiktoScan` adapter (scannerService.js), shaped like `runNmapScan`. -/
def runNiktoScan (cmd : CmdOutcome) (parsed : Except String (List RawFinding))
    (target : String) : List RawFinding :=
  match cmd with
  | .ok _ =>
    match parsed with
    | .ok findings => findings
    | .error _ => getSimulatedNiktoResults target
  | _ => getSimulatedNiktoResults target

/-- The `parseSqlmapOutput` parser (scannerService.js): stdout is pattern-matched for
the injection-point phrase, collapsing to at most one finding. -/
def parseSqlmapOutput (output : String) : List RawFinding :=
  if containsSub "sqlmap identified the following injection point".data output.data then
    [ { vulnerability_type := some "SQL Injection"
        title := some "SQL Injection Vulnerability Detected"
        description := some "SQLMap detected potential SQL injection vulnerabilities"
        port := none
        service := none
        version := none
        protocol := none
        cve_id := none
        affected_component := none
        raw_output := output } ]
  else []

/-- The `runSqlmapScan` adapter (scannerService.js). -/
def runSqlmapScan (cmd : CmdOutcome) (target : String) : List RawFinding :=
  match cmd with
  | .ok output => parseSqlmapOutput output
  | _ => getSimulatedSqlmapResults target

/-- The `runZapScan` adapter (scannerService.js): always the simulated set. -/
def runZapScan (target : String) : List RawFinding :=
  getSimulatedZapResults target

/-! Scan orchestrator and job queue (queueService.js).  One scan job is modelled as a
trace of engine events: scan-row updates, job progress updates, finding inserts and
queue bookkeeping.  Adapter calls are total (they never throw), so an attempt is
parameterized by the finding lists the adapters return and by which database inserts
fail. -/

/-- The `scan_type` dispatch domain of `executeScan`; `other` is the default branch. -/
inductive ScanType
  | nmap
  | nikto
  | sqlmap
  | zap
  | comprehensive
  | other (s : String)
deriving DecidableEq, Repr

/-- The finding lists returned by the four adapters during one attempt. -/
structure Adapters where
  nmap : List RawFinding
  nikto : List RawFinding
  sqlmap : List RawFinding
  zap : List RawFinding
deriving DecidableEq, Repr

/-- The `switch (scanType)` of `executeScan` (queueService.js): the raw finding list
per scan type.  The `comprehensive` branch runs the nmap, nikto and sqlmap adapters
and concatenates their results in that order; an unknown type throws. -/
def scanTypeResults (ad : Adapters) : ScanType → Except String (List RawFinding)
  | .nmap => .ok ad.nmap
  | .nikto => .ok ad.nikto
  | .sqlmap => .ok ad.sqlmap
  | .zap => .ok ad.zap
  | .comprehensive => .ok (ad.nmap ++ ad.nikto ++ ad.sqlmap)
  | .other s => .error ("Unsupported scan type: " ++ s)

/-- Is the scan type one of the supported switch cases? -/
def knownType : ScanType → Bool
  | .other _ => false
  | _ => true

/-- One row of the `scan_results` table as written by the INSERT in `executeScan`. -/
structure FindingRow where
  vulnerability_type : Option String
  risk_level : RiskLevel
  title : String
  description : String
  fix_suggestion : String
  cvss_score : ℚ
  cve_id : Option String
  affected_component : Option String
  port : Option Nat
  service : Option String
  raw_output : String
  ai_analysis : Analysis
deriving DecidableEq, Repr

/-- The column values of the `scan_results` INSERT (queueService.js): raw fields from
the finding, scored fields from the analysis; the title falls back to the analysis
title when the raw title is falsy. -/
def mkFindingRow (result : RawFinding) (aiAnalysis : Analysis) : FindingRow :=
  { vulnerability_type := result.vulnerability_type
    risk_level := aiAnalysis.risk_level
    title := orElseStr result.title aiAnalysis.title
    description := aiAnalysis.description
    fix_suggestion := aiAnalysis.fix_suggestion
    cvss_score := aiAnalysis.cvss_score
    cve_id := result.cve_id
    affected_component := result.affected_component
    port := result.port
    service := result.service
    raw_output := result.raw_output
    ai_analysis := aiAnalysis }

/-- Engine events: scan-row status updates (with the error message and row progress
they write), job progress updates, finding inserts, and queue bookkeeping. -/
inductive Ev
  | updStatus (s : ScanStatus) (msg : Option String) (prog : Option Nat)
  | updJobProgress (n : Nat)
  | insertFinding (row : FindingRow)
  | retryDelay (ms : Nat)
  | jobCompleted
  | jobFailedFinal
deriving DecidableEq, Repr

/-- The classify-and-persist loop of `executeScan` (queueService.js): each raw finding
is individually classified and inserted; a failing insert (modelled by `insertFail`
at that finding index) throws out of the loop, leaving earlier inserts in place. -/
def persistLoop (insertFail : Nat → Option String) :
    List RawFinding → Nat → List Ev × Option String
  | [], _ => ([], none)
  | result :: rest, i =>
    let aiAnalysis := analyzeVulnerability result
    match insertFail i with
    | some e => ([], some e)
    | none =>
      let p := persistLoop insertFail rest (i + 1)
      (Ev.insertFinding (mkFindingRow result aiAnalysis) :: p.1, p.2)

/-- The per-stage progress updates of the `executeScan` switch: the comprehensive
branch reports 20, 40 and 60 between adapter calls; single-tool branches report none. -/
def scanTypeProgressEvs : ScanType → List Ev
  | .comprehensive => [.updJobProgress 20, .updJobProgress 40, .updJobProgress 60]
  | _ => []

/-- Everything one job attempt depends on: the adapters' finding lists, which database
inserts fail, and the scan type of the job payload. -/
structure AttemptEnv where
  adapters : Adapters
  insertFail : Nat → Option String
  scanType : ScanType

/-- The `executeScan` function (queueService.js) as an event trace plus error outcome:
progress 10, then the per-type dispatch (with milestone progress for comprehensive),
progress 80, the classify-and-persist loop, and progress 100 on full success. -/
def executeScanEvs (env : AttemptEnv) : List Ev × Option String :=
  match scanTypeResults env.adapters env.scanType with
  | .error e => ([.updJobProgress 10], some e)
  | .ok results =>
    let p := persistLoop env.insertFail results 0
    let pre := Ev.updJobProgress 10 :: scanTypeProgressEvs env.scanType ++ [Ev.updJobProgress 80]
    match p.2 with
    | some e => (pre ++ p.1, some e)
    | none => (pre ++ p.1 ++ [Ev.updJobProgress 100], none)

/-- One execution of the scan worker handler (queueService.js): set the scan running,
run `executeScan`, then either mark the scan complete with row progress 100, or mark
it error with the thrown message and re-throw (the Bool is true on success). -/
def handlerEvents (env : AttemptEnv) : List Ev × Bool :=
  match executeScanEvs env with
  | (evs, none) =>
    (Ev.updStatus .running none none :: evs ++ [Ev.updStatus .complete none (some 100)], true)
  | (evs, some e) =>
    (Ev.updStatus .running none none :: evs ++ [Ev.updStatus .error (some e) none], false)

/-- The `attempts: 3` default job option of the scan queue (queueService.js). -/
def jobAttempts : Nat := 3

/-- The exponential backoff of the scan queue (queueService.js): base delay 2000 ms,
doubling per made attempt. -/
def backoffDelay (attemptsMade : Nat) : Nat :=
  2000 * 2 ^ (attemptsMade - 1)

/-- At-least-once delivery with retries: run attempt `k` with `remaining` attempts
left; a failed attempt with attempts remaining is retried after the backoff delay,
otherwise the job is marked failed. -/
def runJobFrom (envs : Nat → AttemptEnv) : Nat → Nat → List Ev
  | _, 0 => []
  | k, remaining + 1 =>
    let p := handlerEvents (envs k)
    if p.2 then p.1 ++ [.jobCompleted]
    else if remaining = 0 then p.1 ++ [.jobFailedFinal]
    else p.1 ++ [.retryDelay (backoffDelay k)] ++ runJobFrom envs (k + 1) remaining

/-- A whole job: up to `jobAttempts` attempts, starting at attempt 1. -/
def runJob (envs : Nat → AttemptEnv) : List Ev :=
  runJobFrom envs 1 jobAttempts

/-- Observable engine state: the scan row (status, row progress, error message), the
job progress, and the persisted finding rows. -/
structure EngineState where
  status : ScanStatus
  rowProgress : Nat
  error_message : Option String
  jobProgress : Nat
  findings : List FindingRow
deriving DecidableEq, Repr

/-- Effect of one event on the engine state; queue bookkeeping events change nothing. -/
def applyEv (st : EngineState) : Ev → EngineState
  | .updStatus s msg prog =>
    { st with
      status := s
      error_message := match msg with | some m => some m | none => st.error_message
      rowProgress := match prog with | some p => p | none => st.rowProgress }
  | .updJobProgress n => { st with jobProgress := n }
  | .insertFinding row => { st with findings := st.findings ++ [row] }
  | .retryDelay _ => st
  | .jobCompleted => st
  | .jobFailedFinal => st

/-- State of a freshly created scan row: pending, progress 0, no error message. -/
def initState : EngineState :=
  { status := .pending, rowProgress := 0, error_message := none, jobProgress := 0, findings := [] }

/-- Engine state after a whole event trace. -/
def finalState (evs : List Ev) : EngineState :=
  evs.foldl applyEv initState

/-- The scan-row statuses written by a trace, in order. -/
def statusList : List Ev → List ScanStatus
  | [] => []
  | .updStatus s _ _ :: rest => s :: statusList rest
  | _ :: rest => statusList rest

/-- The job progress values reported by a trace, in order. -/
def progressList : List Ev → List Nat
  | [] => []
  | .updJobProgress n :: rest => n :: progressList rest
  | _ :: rest => progressList rest

/-- The retry backoff delays of a trace, in order. -/
def delaysOf : List Ev → List Nat
  | [] => []
  | .retryDelay ms :: rest => ms :: delaysOf rest
  | _ :: rest => delaysOf rest

/-- The finding rows inserted by a trace, in order. -/
def insertedRows : List Ev → List FindingRow
  | [] => []
  | .insertFinding row :: rest => row :: insertedRows rest
  | _ :: rest => insertedRows rest

/-- Is a scan status terminal? -/
def isTerminal : ScanStatus → Bool
  | .complete => true
  | .error => true
  | .cancelled => true
  | _ => false

/-- Does the trace ever report a job progress lower than the current one while the
scan status is non-terminal? -/
def monoViolation : EngineState → List Ev → Bool
  | _, [] => false
  | st, e :: rest =>
    (match e with
     | .updJobProgress n => decide (n < st.jobProgress) && !isTerminal st.status
     | _ => false)
    || monoViolation (applyEv st e) rest

/-! Concrete sample data used by counterexamples and witnesses. -/

/-- Concrete open-port finding that carries a CVE id and a remote-access port, so its
multiplier is raised to 1.6 while its base score is 0.0. -/
def rdpOpenPortFinding : RawFinding :=
  { vulnerability_type := some "Open Port"
    title := some "RDP Service on Port 3389"
    description := none
    port := some 3389
    service := none
    version := none
    protocol := some "tcp"
    cve_id := some "CVE-2019-0708"
    affected_component := none
    raw_output := "port=3389 state=open" }

/-- Minimal open-port raw finding. -/
def exFinding : RawFinding :=
  { vulnerability_type := some "Open Port"
    title := some "Demo Service"
    description := none
    port := none
    service := none
    version := none
    protocol := none
    cve_id := none
    affected_component := none
    raw_output := "demo" }

/-- A second, distinct raw finding. -/
def exFinding2 : RawFinding :=
  { exFinding with title := some "Second Demo Service", raw_output := "demo2" }

/-- Adapter results with a single nmap finding. -/
def exAdapters : Adapters :=
  { nmap := [exFinding], nikto := [], sqlmap := [], zap := [] }

/-- Adapter results where every adapter, including zap, returns a distinct finding. -/
def exAdapters4 : Adapters :=
  { nmap := [{ exFinding with raw_output := "from nmap" }]
    nikto := [{ exFinding with raw_output := "from nikto" }]
    sqlmap := [{ exFinding with raw_output := "from sqlmap" }]
    zap := [{ exFinding with raw_output := "from zap" }] }

/-- Attempt in which the first database insert fails. -/
def envFail : AttemptEnv :=
  { adapters := exAdapters, insertFail := fun _ => some "insert failed", scanType := .comprehensive }

/-- Attempt in which every insert succeeds. -/
def envOk : AttemptEnv :=
  { adapters := exAdapters, insertFail := fun _ => none, scanType := .comprehensive }

/-- Job whose first attempt fails on the insert and whose retry succeeds. -/
def envsRetry : Nat → AttemptEnv :=
  fun k => if k = 1 then envFail else envOk

/-- Job whose attempts all fail on the insert. -/
def envsAllFail : Nat → AttemptEnv :=
  fun _ => envFail

/-- Insert outcome that fails exactly at the second finding (index 1). -/
def exFailAt1 : Nat → Option String :=
  fun i => if i = 1 then some "db down" else none

/-! Helper lemmas about the classification pipeline. -/

/-- Every profile base score is one of the seven values of the vulnerability database. -/
theorem base_cvss_cases (p : VulnPattern) :
    (vulnerabilityDatabase p).base_cvss = 5.3 ∨ (vulnerabilityDatabase p).base_cvss = 7.5 ∨
    (vulnerabilityDatabase p).base_cvss = 3.7 ∨ (vulnerabilityDatabase p).base_cvss = 8.1 ∨
    (vulnerabilityDatabase p).base_cvss = 9.8 ∨ (vulnerabilityDatabase p).base_cvss = 6.1 ∨
    (vulnerabilityDatabase p).base_cvss = 0.0 := by
  cases p <;> simp [vulnerabilityDatabase]

/-- The contextual multiplier takes one of the eight sums of its three boosts. -/
theorem contextMultiplier_cases (r : RawFinding) :
    contextMultiplier r = 1.0 ∨ contextMultiplier r = 1.2 ∨ contextMultiplier r = 1.3 ∨
    contextMultiplier r = 1.4 ∨ contextMultiplier r = 1.5 ∨ contextMultiplier r = 1.6 ∨
    contextMultiplier r = 1.7 ∨ contextMultiplier r = 1.9 := by
  unfold contextMultiplier
  cases h1 : memNatList r.port [22, 23, 3389] <;>
    cases h2 : memStrList r.service ["mysql", "postgresql", "mssql"] <;>
    cases h3 : truthyStr r.cve_id <;>
    norm_num

/-- On every base-score and multiplier combination the code can produce, the threshold
chain applied to the capped unrounded score agrees with the spec thresholds applied to
the returned (rounded) score. -/
theorem riskLevel_threshold_agree (b m : ℚ)
    (hb : b = 5.3 ∨ b = 7.5 ∨ b = 3.7 ∨ b = 8.1 ∨ b = 9.8 ∨ b = 6.1 ∨ b = 0.0)
    (hm : m = 1.0 ∨ m = 1.2 ∨ m = 1.3 ∨ m = 1.4 ∨ m = 1.5 ∨ m = 1.6 ∨ m = 1.7 ∨ m = 1.9) :
    riskLevelOfScore (min (b * m) 10.0) =
      specRiskLevel (roundTenth (min (b * m) 10.0)) ∧
    riskLevelOfScore (min (b * m) 10.0) = specRiskLevel (min (b * m) 10.0) := by
  rcases hb with rfl | rfl | rfl | rfl | rfl | rfl | rfl <;>
    rcases hm with rfl | rfl | rfl | rfl | rfl | rfl | rfl | rfl <;>
    constructor <;>
    norm_num [riskLevelOfScore, specRiskLevel, roundTenth, round_eq]

/-! Claims C5, C6, C8 and C10: the classification pipeline. -/

/-- C5 (confirmed): for every classified raw finding, the returned risk level is
determined from the returned final score (multiplied, capped, rounded) by the claimed
thresholds ≥9.0 critical, ≥7.0 high, ≥4.0 medium, >0.0 low, else info — stated both
for the returned rounded score and for the capped unrounded score.  The code tests
≥0.1 for low on the unrounded score, but on every score the pipeline can produce the
maps agree. -/
theorem C5_risk_level_thresholds (r : RawFinding) :
    (performAnalysis r).risk_level = specRiskLevel (performAnalysis r).cvss_score ∧
    (performAnalysis r).risk_level =
      specRiskLevel (min ((vulnerabilityDatabase (identifyVulnerabilityPattern r)).base_cvss *
        contextMultiplier r) 10.0) := by
  exact riskLevel_threshold_agree
    ((vulnerabilityDatabase (identifyVulnerabilityPattern r)).base_cvss)
    (contextMultiplier r)
    (base_cvss_cases (identifyVulnerabilityPattern r))
    (contextMultiplier_cases r)

/-- C6 (confirmed): a raw finding whose vulnerability type contains "sql" and that
carries a CVE id, with no remote-access port and no database service, selects the
SQL-injection profile (base 9.8), gets multiplier 1.4, and is returned with score
min(9.8 × 1.4, 10.0) = 10.0 and risk level critical. -/
theorem C6_sql_injection_critical (r : RawFinding)
    (hsql : optContains r.vulnerability_type "sql" = true)
    (hcve : truthyStr r.cve_id = true)
    (hport : memNatList r.port [22, 23, 3389] = false)
    (hserv : memStrList r.service ["mysql", "postgresql", "mssql"] = false) :
    identifyVulnerabilityPattern r = .sql_injection ∧
    (vulnerabilityDatabase (identifyVulnerabilityPattern r)).base_cvss = 9.8 ∧
    contextMultiplier r = 1.4 ∧
    (performAnalysis r).cvss_score = 10.0 ∧
    (performAnalysis r).risk_level = .critical := by
  have hpat : identifyVulnerabilityPattern r = .sql_injection := by
    simp [identifyVulnerabilityPattern, hsql]
  have hm : contextMultiplier r = 1.4 := by
    simp only [contextMultiplier, hport, hserv, hcve]
    norm_num
  refine ⟨hpat, by rw [hpat]; norm_num [vulnerabilityDatabase], hm, ?_, ?_⟩
  · show roundTenth (min ((vulnerabilityDatabase (identifyVulnerabilityPattern r)).base_cvss *
      contextMultiplier r) 10.0) = 10.0
    rw [hpat, hm]
    norm_num [vulnerabilityDatabase, roundTenth, round_eq]
  · show riskLevelOfScore (min ((vulnerabilityDatabase (identifyVulnerabilityPattern r)).base_cvss *
      contextMultiplier r) 10.0) = .critical
    rw [hpat, hm]
    norm_num [vulnerabilityDatabase, riskLevelOfScore]

/-- C6 witness: the simulated sqlmap finding (vulnerability type "SQL Injection",
CVE-2021-44228, no port, no service) classifies to score 10.0, level critical. -/
theorem C6_sql_injection_critical_witness :
    identifyVulnerabilityPattern sqlmapSimulatedFinding = .sql_injection ∧
    (vulnerabilityDatabase (identifyVulnerabilityPattern sqlmapSimulatedFinding)).base_cvss = 9.8 ∧
    contextMultiplier sqlmapSimulatedFinding = 1.4 ∧
    (performAnalysis sqlmapSimulatedFinding).cvss_score = 10.0 ∧
    (performAnalysis sqlmapSimulatedFinding).risk_level = .critical :=
  C6_sql_injection_critical sqlmapSimulatedFinding (by decide) (by decide) (by decide) (by decide)

/-- C8 (confirmed): the classifier is a total function — a successful internal
analysis is returned unchanged, and an internal error is absorbed into the fixed
fallback record with risk level info, score 0.0 and confidence 0.3; and a
classification step never aborts the persist loop (only a failing insert does). -/
theorem C8_classification_never_raises :
    (∀ (analysis : Analysis) (r : RawFinding),
        analyzeVulnerabilityWith (.ok analysis) r = analysis) ∧
    (∀ (e : String) (r : RawFinding),
        analyzeVulnerabilityWith (.error e) r = getFallbackAnalysis r ∧
        (analyzeVulnerabilityWith (.error e) r).risk_level = .info ∧
        (analyzeVulnerabilityWith (.error e) r).cvss_score = 0.0 ∧
        (analyzeVulnerabilityWith (.error e) r).confidence_score = 0.3) ∧
    (∀ (insertFail : Nat → Option String) (rs : List RawFinding) (j : Nat),
        (∀ i, insertFail i = none) → (persistLoop insertFail rs j).2 = none) := by
  refine ⟨fun analysis r => rfl, fun e r => ⟨rfl, rfl, rfl, rfl⟩, ?_⟩
  intro insertFail rs
  induction rs with
  | nil => intro j _; rfl
  | cons result rest ih =>
    intro j h
    simp only [persistLoop, h j]
    exact ih (j + 1) h

/-- C8 witness: instantiation of all three conjuncts at concrete inputs, with the
all-inserts-succeed hypothesis discharged pointwise. -/
theorem C8_classification_never_raises_witness :
    analyzeVulnerabilityWith (.error "boom") sqlmapSimulatedFinding =
      getFallbackAnalysis sqlmapSimulatedFinding ∧
    (persistLoop (fun _ => none) [sqlmapSimulatedFinding] 0).2 = none :=
  ⟨(C8_classification_never_raises.2.1 "boom" sqlmapSimulatedFinding).1,
   C8_classification_never_raises.2.2 (fun _ => none) [sqlmapSimulatedFinding] 0 (fun _ => rfl)⟩

/-- C10 (confirmed): the returned risk level depends only on the final score (the
profile's stored risk level is always overridden — two profiles with equal base
scores classify identically whatever their stored levels), and a finding matching
the default open-port profile (base 0.0) always comes back info with score 0.0,
whatever the multiplier. -/
theorem C10_risk_level_overridden :
    (∀ (r : RawFinding) (p q : Profile), p.base_cvss = q.base_cvss →
        (calculateContextualRisk r p).risk_level = (calculateContextualRisk r q).risk_level) ∧
    (∀ r : RawFinding, identifyVulnerabilityPattern r = .open_port →
        (performAnalysis r).risk_level = .info ∧ (performAnalysis r).cvss_score = 0.0) := by
  constructor
  · intro r p q h
    simp [calculateContextualRisk, h]
  · intro r h
    constructor
    · show riskLevelOfScore (min ((vulnerabilityDatabase (identifyVulnerabilityPattern r)).base_cvss *
        contextMultiplier r) 10.0) = .info
      rw [h]
      have hb : (vulnerabilityDatabase VulnPattern.open_port).base_cvss = 0 := by
        norm_num [vulnerabilityDatabase]
      rw [hb, zero_mul]
      norm_num [riskLevelOfScore]
    · show roundTenth (min ((vulnerabilityDatabase (identifyVulnerabilityPattern r)).base_cvss *
        contextMultiplier r) 10.0) = 0.0
      rw [h]
      have hb : (vulnerabilityDatabase VulnPattern.open_port).base_cvss = 0 := by
        norm_num [vulnerabilityDatabase]
      rw [hb, zero_mul]
      norm_num [roundTenth, round_eq]

/-- C10 witness: both conjuncts instantiated — two profiles sharing base 5.3 but with
different stored levels classify the sample finding identically, and the open-port
finding with CVE and port 3389 still returns info with score 0.0. -/
theorem C10_risk_level_overridden_witness :
    (calculateContextualRisk rdpOpenPortFinding
        { risk_level := .critical, base_cvss := 5.3, description := "a", fix_suggestions := [] }).risk_level =
      (calculateContextualRisk rdpOpenPortFinding
        { risk_level := .info, base_cvss := 5.3, description := "b", fix_suggestions := [] }).risk_level ∧
    (performAnalysis rdpOpenPortFinding).risk_level = .info ∧
    (performAnalysis rdpOpenPortFinding).cvss_score = 0.0 :=
  ⟨C10_risk_level_overridden.1 rdpOpenPortFinding _ _ rfl,
   (C10_risk_level_overridden.2 rdpOpenPortFinding (by decide)).1,
   (C10_risk_level_overridden.2 rdpOpenPortFinding (by decide)).2⟩

/-! Helper lemmas about the orchestrator trace. -/

theorem statusList_append (a b : List Ev) :
    statusList (a ++ b) = statusList a ++ statusList b := by
  induction a with
  | nil => rfl
  | cons e rest ih => cases e <;> simp [statusList, ih]

theorem progressList_append (a b : List Ev) :
    progressList (a ++ b) = progressList a ++ progressList b := by
  induction a with
  | nil => rfl
  | cons e rest ih => cases e <;> simp [progressList, ih]

theorem delaysOf_append (a b : List Ev) :
    delaysOf (a ++ b) = delaysOf a ++ delaysOf b := by
  induction a with
  | nil => rfl
  | cons e rest ih => cases e <;> simp [delaysOf, ih]

theorem statusList_map_insert (rows : List FindingRow) :
    statusList (rows.map Ev.insertFinding) = [] := by
  induction rows with
  | nil => rfl
  | cons r t ih => simpa [statusList] using ih

theorem progressList_map_insert (rows : List FindingRow) :
    progressList (rows.map Ev.insertFinding) = [] := by
  induction rows with
  | nil => rfl
  | cons r t ih => simpa [progressList] using ih

theorem delaysOf_map_insert (rows : List FindingRow) :
    delaysOf (rows.map Ev.insertFinding) = [] := by
  induction rows with
  | nil => rfl
  | cons r t ih => simpa [delaysOf] using ih

theorem progressList_map_insert_mk (rs : List RawFinding) :
    progressList (rs.map fun result =>
      Ev.insertFinding (mkFindingRow result (analyzeVulnerability result))) = [] := by
  induction rs with
  | nil => rfl
  | cons r t ih => simpa [progressList] using ih

theorem insertedRows_map (rows : List FindingRow) :
    insertedRows (rows.map Ev.insertFinding) = rows := by
  induction rows with
  | nil => rfl
  | cons r t ih => simp [insertedRows, ih]

theorem insertedRows_map_mk (rs : List RawFinding) :
    insertedRows (rs.map fun result =>
      Ev.insertFinding (mkFindingRow result (analyzeVulnerability result))) =
    rs.map fun result => mkFindingRow result (analyzeVulnerability result) := by
  induction rs with
  | nil => rfl
  | cons r t ih => simp [insertedRows, ih]

/-- When every insert succeeds, the persist loop emits one insert event per finding,
in order, and no error. -/
theorem persistLoop_all_ok (insertFail : Nat → Option String)
    (hins : ∀ i, insertFail i = none) (rs : List RawFinding) :
    ∀ j, persistLoop insertFail rs j =
      (rs.map (fun result => Ev.insertFinding (mkFindingRow result (analyzeVulnerability result))),
       none) := by
  induction rs with
  | nil => intro j; rfl
  | cons result rest ih => intro j; simp [persistLoop, hins j, ih (j + 1)]

/-- When the first failing insert is the one at offset `k`, the persist loop emits
exactly the insert events for the first `k` findings and reports that error. -/
theorem persistLoop_fail_at (insertFail : Nat → Option String) :
    ∀ (rs : List RawFinding) (j k : Nat) (e : String),
      (∀ i, i < k → insertFail (j + i) = none) → insertFail (j + k) = some e →
      k < rs.length →
      persistLoop insertFail rs j =
        ((rs.take k).map
          (fun result => Ev.insertFinding (mkFindingRow result (analyzeVulnerability result))),
         some e) := by
  intro rs
  induction rs with
  | nil => intro j k e _ _ hlen; simp at hlen
  | cons result rest ih =>
    intro j k e hlt hk hlen
    cases k with
    | zero =>
      have h0 : insertFail j = some e := by simpa using hk
      simp [persistLoop, h0]
    | succ k =>
      have h0 : insertFail j = none := by simpa using hlt 0 (Nat.succ_pos k)
      have hlt2 : ∀ i, i < k → insertFail (j + 1 + i) = none := by
        intro i hi
        have h := hlt (i + 1) (Nat.succ_lt_succ hi)
        have heq : j + (i + 1) = j + 1 + i := by omega
        rwa [heq] at h
      have hk2 : insertFail (j + 1 + k) = some e := by
        have heq : j + (k + 1) = j + 1 + k := by omega
        rwa [heq] at hk
      have hlen2 : k < rest.length := by simpa using Nat.lt_of_succ_lt_succ hlen
      simp [persistLoop, h0, ih (j + 1) k e hlt2 hk2 hlen2]

/-- The persist loop only emits insert events. -/
theorem persistLoop_shape (insertFail : Nat → Option String) (rs : List RawFinding) :
    ∀ j, ∃ rows : List FindingRow,
      (persistLoop insertFail rs j).1 = rows.map Ev.insertFinding := by
  induction rs with
  | nil => intro j; exact ⟨[], rfl⟩
  | cons result rest ih =>
    intro j
    cases h : insertFail j with
    | some e => exact ⟨[], by simp [persistLoop, h]⟩
    | none =>
      obtain ⟨rows, hr⟩ := ih (j + 1)
      exact ⟨mkFindingRow result (analyzeVulnerability result) :: rows,
        by simp [persistLoop, h, hr]⟩

theorem statusList_scanTypeProgressEvs (st : ScanType) :
    statusList (scanTypeProgressEvs st) = [] := by
  cases st <;> rfl

theorem delaysOf_scanTypeProgressEvs (st : ScanType) :
    delaysOf (scanTypeProgressEvs st) = [] := by
  cases st <;> rfl

/-- `executeScan` writes no scan-row status itself. -/
theorem statusList_executeScan (env : AttemptEnv) :
    statusList (executeScanEvs env).1 = [] := by
  unfold executeScanEvs
  cases hres : scanTypeResults env.adapters env.scanType with
  | error e => rfl
  | ok results =>
    obtain ⟨rows, hr⟩ := persistLoop_shape env.insertFail results 0
    cases hp : (persistLoop env.insertFail results 0).2 <;>
      simp [hp, hr, statusList_append, statusList, statusList_scanTypeProgressEvs,
        statusList_map_insert]

/-- `executeScan` schedules no retry delays. -/
theorem delaysOf_executeScan (env : AttemptEnv) :
    delaysOf (executeScanEvs env).1 = [] := by
  unfold executeScanEvs
  cases hres : scanTypeResults env.adapters env.scanType with
  | error e => rfl
  | ok results =>
    obtain ⟨rows, hr⟩ := persistLoop_shape env.insertFail results 0
    cases hp : (persistLoop env.insertFail results 0).2 <;>
      simp [hp, hr, delaysOf_append, delaysOf, delaysOf_scanTypeProgressEvs,
        delaysOf_map_insert]

/-- A successful attempt wraps the `executeScan` trace between the running update and
the complete update. -/
theorem handlerEvents_ok (env : AttemptEnv) (h : (executeScanEvs env).2 = none) :
    handlerEvents env =
      (Ev.updStatus .running none none :: (executeScanEvs env).1 ++
        [Ev.updStatus .complete none (some 100)], true) := by
  unfold handlerEvents
  rcases hE : executeScanEvs env with ⟨evs, err⟩
  rw [hE] at h
  obtain rfl : err = none := h
  rfl

/-- A failed attempt wraps the `executeScan` trace between the running update and the
error update carrying the thrown message. -/
theorem handlerEvents_err (env : AttemptEnv) (e : String)
    (h : (executeScanEvs env).2 = some e) :
    handlerEvents env =
      (Ev.updStatus .running none none :: (executeScanEvs env).1 ++
        [Ev.updStatus .error (some e) none], false) := by
  unfold handlerEvents
  rcases hE : executeScanEvs env with ⟨evs, err⟩
  rw [hE] at h
  obtain rfl : err = some e := h
  rfl

/-- A known scan type with all inserts succeeding gives a successful attempt. -/
theorem executeScanEvs_ok (env : AttemptEnv) (hty : knownType env.scanType = true)
    (hins : ∀ i, env.insertFail i = none) : (executeScanEvs env).2 = none := by
  rcases env with ⟨ad, insertFail, st⟩
  cases st <;>
    simp_all [executeScanEvs, scanTypeResults, knownType, persistLoop_all_ok insertFail hins]

/-! Claims C2, C3 and C7: the orchestrator and the adapters. -/

/-- C2 counterexample: with every adapter returning a distinct finding, the combined
raw finding list is not the concatenation of all four adapters' results — the zap
adapter's finding is missing. -/
theorem C2_counterexample :
    scanTypeResults exAdapters4 .comprehensive =
      .ok (exAdapters4.nmap ++ exAdapters4.nikto ++ exAdapters4.sqlmap) ∧
    exAdapters4.nmap ++ exAdapters4.nikto ++ exAdapters4.sqlmap ≠
      exAdapters4.nmap ++ exAdapters4.nikto ++ exAdapters4.sqlmap ++ exAdapters4.zap :=
  ⟨rfl, by decide⟩

/-- C2 (corrected, amended): for every combined scan job the orchestrator invokes
three tool adapters — nmap, nikto, sqlmap — sequentially in that fixed order and the
raw finding list is the concatenation of their results in that order; the zap adapter
is not invoked by a combined scan. -/
theorem C2_combined_three_adapters (ad : Adapters) :
    scanTypeResults ad .comprehensive = .ok (ad.nmap ++ ad.nikto ++ ad.sqlmap) :=
  rfl

/-- C3 (confirmed): each raw finding is individually classified and persisted in
production order — if the insert of the finding at index `k` fails, exactly the
classified rows of the first `k` findings have been persisted and remain (the state
transition function only ever appends to the persisted findings; nothing is rolled
back), and on full success every finding is persisted in order. -/
theorem C3_per_finding_persistence :
    (∀ (insertFail : Nat → Option String) (rs : List RawFinding) (k : Nat) (e : String),
        (∀ i, i < k → insertFail i = none) → insertFail k = some e → k < rs.length →
        insertedRows (persistLoop insertFail rs 0).1 =
          (rs.take k).map (fun result => mkFindingRow result (analyzeVulnerability result)) ∧
        (persistLoop insertFail rs 0).2 = some e) ∧
    (∀ (insertFail : Nat → Option String) (rs : List RawFinding),
        (∀ i, insertFail i = none) →
        insertedRows (persistLoop insertFail rs 0).1 =
          rs.map (fun result => mkFindingRow result (analyzeVulnerability result))) ∧
    (∀ (st : EngineState) (e : Ev), st.findings <+: (applyEv st e).findings) := by
  refine ⟨?_, ?_, ?_⟩
  · intro insertFail rs k e hlt hk hlen
    have hlt0 : ∀ i, i < k → insertFail (0 + i) = none := by
      intro i hi; simpa using hlt i hi
    have hk0 : insertFail (0 + k) = some e := by simpa using hk
    have h := persistLoop_fail_at insertFail rs 0 k e hlt0 hk0 hlen
    rw [h]
    exact ⟨insertedRows_map_mk _, rfl⟩
  · intro insertFail rs hins
    rw [persistLoop_all_ok insertFail hins rs 0]
    exact insertedRows_map_mk _
  · intro st e
    cases e <;> simp [applyEv]

/-- C3 witness: two findings with the insert failing at index 1 — exactly the first
finding's classified row is persisted and the error is reported. -/
theorem C3_per_finding_persistence_witness :
    insertedRows (persistLoop exFailAt1 [exFinding, exFinding2] 0).1 =
      [mkFindingRow exFinding (analyzeVulnerability exFinding)] ∧
    (persistLoop exFailAt1 [exFinding, exFinding2] 0).2 = some "db down" := by
  have h := C3_per_finding_persistence.1 exFailAt1 [exFinding, exFinding2] 1 "db down"
    (fun i hi => by
      have h0 : i = 0 := by omega
      subst h0
      rfl)
    rfl (by decide)
  exact ⟨by rw [h.1]; rfl, h.2⟩

/-- C7 (confirmed): on process timeout, non-zero exit or spawn failure each adapter
returns its deterministic simulated finding set (a function of the target only)
instead of raising, and an attempt with a supported scan type whose inserts all
succeed still ends with the scan complete at row progress 100. -/
theorem C7_adapter_fallback_scan_completes :
    (∀ (cmd : CmdOutcome) (parsed : Except String (List RawFinding)) (target : String),
        isOkCmd cmd = false → runNmapScan cmd parsed target = getSimulatedNmapResults target) ∧
    (∀ (cmd : CmdOutcome) (parsed : Except String (List RawFinding)) (target : String),
        isOkCmd cmd = false → runNiktoScan cmd parsed target = getSimulatedNiktoResults target) ∧
    (∀ (cmd : CmdOutcome) (target : String),
        isOkCmd cmd = false → runSqlmapScan cmd target = getSimulatedSqlmapResults target) ∧
    (∀ target, runZapScan target = getSimulatedZapResults target) ∧
    (∀ (ad : Adapters) (st : ScanType), knownType st = true →
        (finalState (handlerEvents ⟨ad, fun _ => none, st⟩).1).status = .complete ∧
        (finalState (handlerEvents ⟨ad, fun _ => none, st⟩).1).rowProgress = 100) := by
  refine ⟨?_, ?_, ?_, fun target => rfl, ?_⟩
  · intro cmd parsed target h
    cases cmd <;> simp_all [runNmapScan, isOkCmd]
  · intro cmd parsed target h
    cases cmd <;> simp_all [runNiktoScan, isOkCmd]
  · intro cmd target h
    cases cmd <;> simp_all [runSqlmapScan, isOkCmd]
  · intro ad st hty
    have h2 : (executeScanEvs ⟨ad, fun _ => none, st⟩).2 = none :=
      executeScanEvs_ok _ hty (fun _ => rfl)
    rw [handlerEvents_ok _ h2]
    constructor <;> simp [finalState, List.foldl_append, applyEv]

/-- C7 witness: each failure kind at a concrete target yields the simulated set, and a
concrete comprehensive attempt with succeeding inserts completes at progress 100. -/
theorem C7_adapter_fallback_scan_completes_witness :
    runNmapScan (.timedOut 300000) (.error "output file missing") "example.com" =
      getSimulatedNmapResults "example.com" ∧
    runNiktoScan (.nonzeroExit 1 "connection refused") (.error "x") "example.com" =
      getSimulatedNiktoResults "example.com" ∧
    runSqlmapScan (.spawnError "ENOENT") "example.com" = getSimulatedSqlmapResults "example.com" ∧
    runZapScan "example.com" = getSimulatedZapResults "example.com" ∧
    (finalState (handlerEvents ⟨exAdapters, fun _ => none, .comprehensive⟩).1).status = .complete ∧
    (finalState (handlerEvents ⟨exAdapters, fun _ => none, .comprehensive⟩).1).rowProgress = 100 :=
  ⟨C7_adapter_fallback_scan_completes.1 _ _ _ rfl,
   C7_adapter_fallback_scan_completes.2.1 _ _ _ rfl,
   C7_adapter_fallback_scan_completes.2.2.1 _ _ rfl,
   C7_adapter_fallback_scan_completes.2.2.2.1 _,
   (C7_adapter_fallback_scan_completes.2.2.2.2 exAdapters .comprehensive rfl).1,
   (C7_adapter_fallback_scan_completes.2.2.2.2 exAdapters .comprehensive rfl).2⟩

/-! Helper lemmas about the job-retry layer. -/

theorem statusList_handler_ok (env : AttemptEnv) (h : (executeScanEvs env).2 = none) :
    statusList (handlerEvents env).1 = [.running, .complete] := by
  rw [handlerEvents_ok env h]
  simp [statusList, statusList_append, statusList_executeScan]

theorem statusList_handler_err (env : AttemptEnv) (e : String)
    (h : (executeScanEvs env).2 = some e) :
    statusList (handlerEvents env).1 = [.running, .error] := by
  rw [handlerEvents_err env e h]
  simp [statusList, statusList_append, statusList_executeScan]

theorem delaysOf_handler (env : AttemptEnv) : delaysOf (handlerEvents env).1 = [] := by
  cases h : (executeScanEvs env).2 with
  | none =>
    rw [handlerEvents_ok env h]
    simp [delaysOf, delaysOf_append, delaysOf_executeScan]
  | some e =>
    rw [handlerEvents_err env e h]
    simp [delaysOf, delaysOf_append, delaysOf_executeScan]

theorem progressList_handler (env : AttemptEnv) :
    progressList (handlerEvents env).1 = progressList (executeScanEvs env).1 := by
  cases h : (executeScanEvs env).2 with
  | none =>
    rw [handlerEvents_ok env h]
    simp [progressList, progressList_append]
  | some e =>
    rw [handlerEvents_err env e h]
    simp [progressList, progressList_append]

/-- A three-attempt job unrolled: attempt 1, then on failure a 2000 ms delay and
attempt 2, then on failure a 4000 ms delay and the final attempt 3. -/
theorem runJob_unfold (envs : Nat → AttemptEnv) :
    runJob envs =
      (if (handlerEvents (envs 1)).2 then (handlerEvents (envs 1)).1 ++ [.jobCompleted]
       else (handlerEvents (envs 1)).1 ++ [.retryDelay 2000] ++
        (if (handlerEvents (envs 2)).2 then (handlerEvents (envs 2)).1 ++ [.jobCompleted]
         else (handlerEvents (envs 2)).1 ++ [.retryDelay 4000] ++
          (if (handlerEvents (envs 3)).2 then (handlerEvents (envs 3)).1 ++ [.jobCompleted]
           else (handlerEvents (envs 3)).1 ++ [.jobFailedFinal]))) :=
  rfl

theorem getLast?_append_of_getLast? {l t : List Ev} {a : Ev} (h : t.getLast? = some a) :
    (l ++ t).getLast? = some a := by
  rw [List.getLast?_append, h]
  rfl

/-- A job whose three attempts all fail, as one explicit trace. -/
theorem runJob_all_fail (envs : Nat → AttemptEnv) (e1 e2 e3 : String)
    (h1 : (executeScanEvs (envs 1)).2 = some e1)
    (h2 : (executeScanEvs (envs 2)).2 = some e2)
    (h3 : (executeScanEvs (envs 3)).2 = some e3) :
    runJob envs =
      (Ev.updStatus .running none none :: (executeScanEvs (envs 1)).1 ++
          [Ev.updStatus .error (some e1) none]) ++ [Ev.retryDelay 2000] ++
        ((Ev.updStatus .running none none :: (executeScanEvs (envs 2)).1 ++
            [Ev.updStatus .error (some e2) none]) ++ [Ev.retryDelay 4000] ++
          ((Ev.updStatus .running none none :: (executeScanEvs (envs 3)).1 ++
              [Ev.updStatus .error (some e3) none]) ++ [Ev.jobFailedFinal])) := by
  rw [runJob_unfold, handlerEvents_err _ _ h1, handlerEvents_err _ _ h2,
    handlerEvents_err _ _ h3]
  rfl

/-! Claims C1, C4 and C9: the per-scan state machine under the retry policy. -/

/-- C1 counterexample: in the concrete job whose first attempt fails on the insert
and whose retry succeeds, the engine writes status error (position 1 of the status
trace) and then writes running again (position 2) — a transition out of the terminal
error status, performed by the retry of the same job. -/
theorem C1_counterexample :
    (statusList (runJob envsRetry))[1]? = some ScanStatus.error ∧
    (statusList (runJob envsRetry))[2]? = some ScanStatus.running := by
  decide

/-- C1 (corrected, amended): the status trace of a job is one of four shapes — every
complete is final, and an error written by a failed attempt is final only when it was
the last attempt; an error written by a non-final failed attempt is followed by
running again when the job retries. -/
theorem C1_terminal_status_amended (envs : Nat → AttemptEnv) :
    statusList (runJob envs) = [.running, .complete] ∨
    statusList (runJob envs) = [.running, .error, .running, .complete] ∨
    statusList (runJob envs) = [.running, .error, .running, .error, .running, .complete] ∨
    statusList (runJob envs) = [.running, .error, .running, .error, .running, .error] := by
  rw [runJob_unfold]
  cases h1 : (executeScanEvs (envs 1)).2 with
  | none =>
    rw [handlerEvents_ok _ h1]
    left
    simp [statusList, statusList_append, statusList_executeScan]
  | some e1 =>
    rw [handlerEvents_err _ _ h1]
    cases h2 : (executeScanEvs (envs 2)).2 with
    | none =>
      rw [handlerEvents_ok _ h2]
      right; left
      simp [statusList, statusList_append, statusList_executeScan]
    | some e2 =>
      rw [handlerEvents_err _ _ h2]
      cases h3 : (executeScanEvs (envs 3)).2 with
      | none =>
        rw [handlerEvents_ok _ h3]
        right; right; left
        simp [statusList, statusList_append, statusList_executeScan]
      | some e3 =>
        rw [handlerEvents_err _ _ h3]
        right; right; right
        simp [statusList, statusList_append, statusList_executeScan]

/-- C4 counterexample: in the concrete all-attempts-fail job, the error message is
written to the scan row (event 6) before the first retry delay (event 7) — that is,
while retries remain, not only after they are exhausted. -/
theorem C4_counterexample :
    (runJob envsAllFail)[6]? = some (Ev.updStatus .error (some "insert failed") none) ∧
    (runJob envsAllFail)[7]? = some (Ev.retryDelay 2000) := by
  decide

/-- C4 (corrected, amended): a job whose handler keeps throwing is retried with
exponential backoff delays 2000 ms and 4000 ms and then marked failed, and after the
final attempt the scan has status error with the final failure reason as its error
message; but the error message is written on every failed attempt (see the
counterexample), not only after retries are exhausted. -/
theorem C4_retry_backoff_amended (envs : Nat → AttemptEnv) (e1 e2 e3 : String)
    (h1 : (executeScanEvs (envs 1)).2 = some e1)
    (h2 : (executeScanEvs (envs 2)).2 = some e2)
    (h3 : (executeScanEvs (envs 3)).2 = some e3) :
    delaysOf (runJob envs) = [2000, 4000] ∧
    (runJob envs).getLast? = some Ev.jobFailedFinal ∧
    (finalState (runJob envs)).status = .error ∧
    (finalState (runJob envs)).error_message = some e3 := by
  have hR := runJob_all_fail envs e1 e2 e3 h1 h2 h3
  refine ⟨?_, ?_, ?_, ?_⟩
  · rw [hR]
    simp [delaysOf, delaysOf_append, delaysOf_executeScan]
  · rw [hR]
    exact getLast?_append_of_getLast?
      (getLast?_append_of_getLast? (List.getLast?_concat _))
  · rw [hR]
    simp [finalState, List.foldl_append, applyEv]
  · rw [hR]
    simp [finalState, List.foldl_append, applyEv]

/-- C4 witness: the concrete all-attempts-fail job has delays 2000 and 4000, is marked
failed, and ends in status error with the failure message. -/
theorem C4_retry_backoff_amended_witness :
    delaysOf (runJob envsAllFail) = [2000, 4000] ∧
    (runJob envsAllFail).getLast? = some Ev.jobFailedFinal ∧
    (finalState (runJob envsAllFail)).status = .error ∧
    (finalState (runJob envsAllFail)).error_message = some "insert failed" :=
  C4_retry_backoff_amended envsAllFail "insert failed" "insert failed" "insert failed"
    (by decide) (by decide) (by decide)

/-- C9 counterexample: in the concrete job whose first attempt fails after reaching
progress 80 and is retried, progress is reported as 10 again while the scan status is
running — the reported progress decreases while the status is non-terminal. -/
theorem C9_counterexample :
    monoViolation initState (runJob envsRetry) = true := by
  decide

/-- The progress trace of one `executeScan` run is one of five lists, depending on
scan type and on whether the persist phase fails. -/
theorem progressList_executeScan_cases (env : AttemptEnv) :
    progressList (executeScanEvs env).1 = [10] ∨
    progressList (executeScanEvs env).1 = [10, 80] ∨
    progressList (executeScanEvs env).1 = [10, 80, 100] ∨
    progressList (executeScanEvs env).1 = [10, 20, 40, 60, 80] ∨
    progressList (executeScanEvs env).1 = [10, 20, 40, 60, 80, 100] := by
  rcases env with ⟨ad, insertFail, st⟩
  cases st
  case other s =>
    left
    simp [executeScanEvs, scanTypeResults, progressList]
  case nmap =>
    obtain ⟨rows, hr⟩ := persistLoop_shape insertFail ad.nmap 0
    cases hp : (persistLoop insertFail ad.nmap 0).2 with
    | none =>
      right; right; left
      simp [executeScanEvs, scanTypeResults, hp, hr, progressList, progressList_append,
        scanTypeProgressEvs, progressList_map_insert, -List.append_assoc]
    | some e =>
      right; left
      simp [executeScanEvs, scanTypeResults, hp, hr, progressList, progressList_append,
        scanTypeProgressEvs, progressList_map_insert, -List.append_assoc]
  case nikto =>
    obtain ⟨rows, hr⟩ := persistLoop_shape insertFail ad.nikto 0
    cases hp : (persistLoop insertFail ad.nikto 0).2 with
    | none =>
      right; right; left
      simp [executeScanEvs, scanTypeResults, hp, hr, progressList, progressList_append,
        scanTypeProgressEvs, progressList_map_insert, -List.append_assoc]
    | some e =>
      right; left
      simp [executeScanEvs, scanTypeResults, hp, hr, progressList, progressList_append,
        scanTypeProgressEvs, progressList_map_insert, -List.append_assoc]
  case sqlmap =>
    obtain ⟨rows, hr⟩ := persistLoop_shape insertFail ad.sqlmap 0
    cases hp : (persistLoop insertFail ad.sqlmap 0).2 with
    | none =>
      right; right; left
      simp [executeScanEvs, scanTypeResults, hp, hr, progressList, progressList_append,
        scanTypeProgressEvs, progressList_map_insert, -List.append_assoc]
    | some e =>
      right; left
      simp [executeScanEvs, scanTypeResults, hp, hr, progressList, progressList_append,
        scanTypeProgressEvs, progressList_map_insert, -List.append_assoc]
  case zap =>
    obtain ⟨rows, hr⟩ := persistLoop_shape insertFail ad.zap 0
    cases hp : (persistLoop insertFail ad.zap 0).2 with
    | none =>
      right; right; left
      simp [executeScanEvs, scanTypeResults, hp, hr, progressList, progressList_append,
        scanTypeProgressEvs, progressList_map_insert, -List.append_assoc]
    | some e =>
      right; left
      simp [executeScanEvs, scanTypeResults, hp, hr, progressList, progressList_append,
        scanTypeProgressEvs, progressList_map_insert, -List.append_assoc]
  case comprehensive =>
    obtain ⟨rows, hr⟩ :=
      persistLoop_shape insertFail (ad.nmap ++ ad.nikto ++ ad.sqlmap) 0
    cases hp : (persistLoop insertFail (ad.nmap ++ ad.nikto ++ ad.sqlmap) 0).2 with
    | none =>
      right; right; right; right
      simp [executeScanEvs, scanTypeResults, hp, hr, progressList, progressList_append,
        scanTypeProgressEvs, progressList_map_insert, -List.append_assoc]
    | some e =>
      right; right; right; left
      simp [executeScanEvs, scanTypeResults, hp, hr, progressList, progressList_append,
        scanTypeProgressEvs, progressList_map_insert, -List.append_assoc]

/-- C9 (corrected, amended): a fully successful combined attempt reports progress
exactly 10, 20, 40, 60, 80, 100, so it passes through 20, 40, 60, 80, 100 in that
order; and within any single job attempt the reported progress never decreases.
Across a retry of a failed attempt, however, progress restarts at 10 while the scan
status is running (see the counterexample). -/
theorem C9_progress_amended :
    (∀ ad : Adapters,
        progressList (handlerEvents ⟨ad, fun _ => none, .comprehensive⟩).1 =
          [10, 20, 40, 60, 80, 100] ∧
        List.Sublist [20, 40, 60, 80, 100]
          (progressList (handlerEvents ⟨ad, fun _ => none, .comprehensive⟩).1)) ∧
    (∀ env : AttemptEnv, List.Chain' (· ≤ ·) (progressList (handlerEvents env).1)) := by
  have hprog : ∀ ad : Adapters,
      progressList (handlerEvents ⟨ad, fun _ => none, ScanType.comprehensive⟩).1 =
        [10, 20, 40, 60, 80, 100] := by
    intro ad
    rw [progressList_handler]
    simp [executeScanEvs, scanTypeResults,
      persistLoop_all_ok (fun _ => none) (fun _ => rfl),
      progressList, progressList_append, scanTypeProgressEvs, progressList_map_insert_mk]
  refine ⟨fun ad => ⟨hprog ad, ?_⟩, ?_⟩
  · rw [hprog ad]
    decide
  · intro env
    rw [progressList_handler]
    rcases progressList_executeScan_cases env with h | h | h | h | h <;>
      rw [h] <;> simp [List.chain'_cons, List.chain'_singleton]

end SentinelBot
